import Mathlib

/-!
Verification of the extraction-and-routing pipeline of `factu_mail_reader`
(source files `src/parser.js`, `src/processor.js`, `src/main.js`) against its
natural-language design document.

The JavaScript is embedded shallowly:
* parsed XML trees become Lean structures whose fields are `Option`-valued,
  mirroring possibly-absent properties of the parsed object;
* JavaScript optional chaining (`a?.b`) becomes `Option.bind`, `??` becomes
  `Option.orElse`/`Option.getD`, and an unguarded property access on a value
  that may be `undefined` becomes an explicit `Except.error JsErr.typeError`
  (a thrown `TypeError`);
* effectful routines of `processor.js` are modelled as pure functions from an
  environment (describing the outcomes of the external collaborators: mail
  store downloads, filesystem writes, the external document builder) to the
  list of side effects they perform, in program order.
-/

namespace FactuMail

/-- Errors a modelled JavaScript expression can throw: `TypeError` from a
property access on `undefined`/`null`, `ReferenceError` from an undeclared
identifier, and ordinary `Error` objects with a message. -/
inductive JsErr where
  | typeError
  | referenceError (name : String)
  | appError (msg : String)
deriving Repr, DecidableEq

/-! ## Data model of the parsed XML trees (`src/parser.js`) -/

/-- `PartyTaxScheme` node: `CompanyID` / `RegistrationName` children. -/
structure TaxSchemeData where
  CompanyID : Option String
  RegistrationName : Option String
deriving Repr, DecidableEq

/-- A party node (`Party`, `SenderParty`, `ReceiverParty`): carries an
optional `PartyTaxScheme`. -/
structure PartyData where
  PartyTaxScheme : Option TaxSchemeData
deriving Repr, DecidableEq

/-- `AccountingSupplierParty` / `AccountingCustomerParty` wrapper holding an
optional `Party`. -/
structure PartyWrapper where
  Party : Option PartyData
deriving Repr, DecidableEq

/-- `LegalMonetaryTotal` node. `PayableAmount` is parsed as a number by
fast-xml-parser; the claims only exercise integral values, so it is modelled
as `Int`. -/
structure MonetaryTotalData where
  PayableAmount : Option Int
deriving Repr, DecidableEq

/-- An `Invoice`/`CreditNote` child node inside an embedded attachment (only
its `ID` and `LegalMonetaryTotal` are ever read). -/
structure SubDocData where
  ID : Option String
  LegalMonetaryTotal : Option MonetaryTotalData
deriving Repr, DecidableEq

/-- `DocumentReference` node inside `ParentDocumentLineReference`. -/
structure DocRefData where
  ID : Option String
  UUID : Option String
deriving Repr, DecidableEq

/-- `ParentDocumentLineReference` node. `#extractCUFE` optional-chains
`DocumentReference` while `#extractID` does not, so it is optional here. -/
structure PLRData where
  DocumentReference : Option DocRefData
deriving Repr, DecidableEq

/-- The secondary ("embedded attachment") document obtained by re-parsing the
CDATA payload: only `ID`, `Invoice.ID`, `CreditNote.ID` and the monetary
totals are read off it. -/
structure AttachmentDocData where
  ID : Option String
  Invoice : Option SubDocData
  CreditNote : Option SubDocData
  LegalMonetaryTotal : Option MonetaryTotalData
deriving Repr, DecidableEq

/-- `Description` node of an `ExternalReference`. The source reads
`Description.__cdata`, strips the CDATA markers and re-parses the string; the
model stores directly the parse result of that payload (`none` models an
absent `__cdata` property). -/
structure DescriptionData where
  cdata : Option AttachmentDocData
deriving Repr, DecidableEq

/-- `ExternalReference` node of an `Attachment`. -/
structure ExternalReferenceData where
  Description : Option DescriptionData
deriving Repr, DecidableEq

/-- `Attachment` node of a primary document. -/
structure AttachmentWrapper where
  ExternalReference : Option ExternalReferenceData
deriving Repr, DecidableEq

/-- A primary billing document (the tree under `Invoice`, `CreditNote` or
`AttachedDocument`). Fields are exactly the properties the extractor reads.
`Invoice` and `LegalMonetaryTotal` appear because `#extractAttachmentBilling`
passes the primary document itself to `#extractValue`. -/
structure BillingDocument where
  ID : Option String
  UUID : Option String
  IssueDate : Option String
  AltID : Option String
  ParentDocumentID : Option String
  ParentDocumentLineReference : Option PLRData
  SenderParty : Option PartyData
  ReceiverParty : Option PartyData
  AccountingSupplierParty : Option PartyWrapper
  AccountingCustomerParty : Option PartyWrapper
  Attachment : Option AttachmentWrapper
  Invoice : Option SubDocData
  LegalMonetaryTotal : Option MonetaryTotalData
deriving Repr, DecidableEq

/-- A `BillingDocument` with every property absent. -/
def emptyDocument : BillingDocument :=
  ⟨none, none, none, none, none, none, none, none, none, none, none, none, none⟩

/-- Result of parsing a top-level XML file: at most one of the three variant
roots is read. -/
structure BillingDocumentXML where
  Invoice : Option BillingDocument
  CreditNote : Option BillingDocument
  AttachedDocument : Option BillingDocument
deriving Repr, DecidableEq

/-- The projected party record `{nit, nombre}`. -/
structure NitNombre where
  nit : String
  nombre : String
deriving Repr, DecidableEq

/-- The canonical `Billing` output record. `cufe`/`date` are `Option` because
`#extractAttachmentBilling` copies `document.UUID` / `document.IssueDate`
verbatim, which may be `undefined`. -/
structure Billing where
  id : String
  cufe : Option String
  date : Option String
  value : Int
  proveedor : NitNombre
  cliente : NitNombre
deriving Repr, DecidableEq

/-! ## The extractor functions (`src/parser.js`) -/

/-- `#extractID(document, attachment)` (parser.js:31-42): the `??` fallback
chain. `attachment?.X?.ID` accesses are fully optional-chained;
`document.ParentDocumentLineReference?.DocumentReference.ID` optional-chains
only the first link, so a present `ParentDocumentLineReference` whose
`DocumentReference` is absent throws a `TypeError`. -/
def extractID (document : BillingDocument) (attachment : Option AttachmentDocData) :
    Except JsErr String :=
  match attachment.bind (·.ID) with
  | some v => .ok v
  | none =>
  match (attachment.bind (·.Invoice)).bind (·.ID) with
  | some v => .ok v
  | none =>
  match (attachment.bind (·.CreditNote)).bind (·.ID) with
  | some v => .ok v
  | none =>
  match (if document.ParentDocumentID = some "null" then none else document.ParentDocumentID) with
  | some v => .ok v
  | none =>
  match document.AltID with
  | some v => .ok v
  | none =>
  match document.ParentDocumentLineReference with
  | none => .ok (document.ID.getD "")
  | some plr =>
    match plr.DocumentReference with
    | none => .error .typeError
    | some dr =>
      match dr.ID with
      | some v => .ok v
      | none => .ok (document.ID.getD "")

/-- `#extractCUFE(document)` (parser.js:49-51): fully optional-chained, total. -/
def extractCUFE (document : BillingDocument) : String :=
  (document.UUID.orElse fun _ =>
    (document.ParentDocumentLineReference.bind (·.DocumentReference)).bind (·.UUID)).getD ""

/-- `#extractEntityData(entity)` (parser.js:58-63). The source only
optional-chains `entity` itself (`entity?.PartyTaxScheme.CompanyID`), so an
absent entity yields the defaults, but a present entity with an absent
`PartyTaxScheme` throws a `TypeError`. The duplicated `?? entity?....`
operand of the source is mirrored. -/
def extractEntityData (entity : Option PartyData) : Except JsErr NitNombre :=
  match entity with
  | none => .ok ⟨"", ""⟩
  | some e =>
    match e.PartyTaxScheme with
    | none => .error .typeError
    | some pts =>
      .ok ⟨((pts.CompanyID.orElse fun _ => pts.CompanyID).getD ""),
           ((pts.RegistrationName.orElse fun _ => pts.RegistrationName).getD "")⟩

/-- `#extractValue(attachment)` (parser.js:70-74). The source applies this to
two shapes (the embedded attachment in `#extractBilling`, the primary
document itself in `#extractAttachmentBilling`), so the model takes the two
properties it reads. -/
def extractValue (Invoice : Option SubDocData) (LegalMonetaryTotal : Option MonetaryTotalData) :
    Int :=
  (((Invoice.bind (·.LegalMonetaryTotal)).bind (·.PayableAmount)).orElse fun _ =>
    LegalMonetaryTotal.bind (·.PayableAmount)).getD 0

/-- `#extractAttachment(document)` (parser.js:81-85). The chain
`document.Attachment.ExternalReference.Description.__cdata` has no optional
chaining at all: any absent link throws a `TypeError`. On success the CDATA
payload is re-parsed; the model stores that parse result in the
`cdata` field. -/
def extractAttachment (document : BillingDocument) : Except JsErr AttachmentDocData :=
  match document.Attachment with
  | none => .error .typeError
  | some a =>
    match a.ExternalReference with
    | none => .error .typeError
    | some er =>
      match er.Description with
      | none => .error .typeError
      | some d =>
        match d.cdata with
        | none => .error .typeError
        | some parsed => .ok parsed

/-- `#extractBilling(document)` (parser.js:92-103), the `AttachedDocument`
path: parties come from `SenderParty ?? AccountingSupplierParty?.Party`
(resp. receiver), the value from the embedded attachment, the cufe from
`#extractCUFE`. -/
def extractBilling (document : BillingDocument) : Except JsErr Billing := do
  let attachment ← extractAttachment document
  let id ← extractID document (some attachment)
  let proveedor ← extractEntityData
    (document.SenderParty.orElse fun _ => document.AccountingSupplierParty.bind (·.Party))
  let cliente ← extractEntityData
    (document.ReceiverParty.orElse fun _ => document.AccountingCustomerParty.bind (·.Party))
  return { id := id, cufe := some (extractCUFE document), date := document.IssueDate,
           value := extractValue attachment.Invoice attachment.LegalMonetaryTotal,
           proveedor := proveedor, cliente := cliente }

/-- `#extractAttachmentBilling(document)` (parser.js:110-121), the
`Invoice`/`CreditNote` path. Note three source facts mirrored here: the
embedded attachment is still extracted unconditionally; `#extractValue`
receives `document` (not the attachment); and
`document.AccountingSupplierParty.Party` / `...CustomerParty.Party` are not
optional-chained, so an absent wrapper throws a `TypeError`. -/
def extractAttachmentBilling (document : BillingDocument) : Except JsErr Billing := do
  let attachment ← extractAttachment document
  let id ← extractID document (some attachment)
  let proveedor ← match document.AccountingSupplierParty with
    | none => Except.error JsErr.typeError
    | some w => extractEntityData w.Party
  let cliente ← match document.AccountingCustomerParty with
    | none => Except.error JsErr.typeError
    | some w => extractEntityData w.Party
  return { id := id, cufe := document.UUID, date := document.IssueDate,
           value := extractValue document.Invoice document.LegalMonetaryTotal,
           proveedor := proveedor, cliente := cliente }

/-- Errors thrown by `#parseXML` / `parse` (parser.js:144-197), one per
`throw` site. `nullDataTypeError` models the `TypeError` the `parse` entry
point would raise on a `null` result (`data.id` with `data === null`). -/
inductive ParseError where
  | xmlUnreadable
  | noValidData
  | extractFailed
  | nullDataTypeError
  | missingId
deriving Repr, DecidableEq

/-- `#parseXML` (parser.js:144-181) after the file read: `null` parse data is
rejected, then the three variant roots are tried in source order
(`Invoice`, `CreditNote`, `AttachedDocument`); any error thrown by the
extractors is caught and replaced by `extractFailed`
(`'Error al leer los datos de la factura'`). -/
def parseXMLData (parsedXML : Option BillingDocumentXML) :
    Except ParseError (Option Billing) :=
  match parsedXML with
  | none => .error .xmlUnreadable
  | some px =>
    if px.Invoice.isNone && px.AttachedDocument.isNone && px.CreditNote.isNone then
      .error .noValidData
    else
      let r : Except JsErr (Option Billing) :=
        match px.Invoice with
        | some inv => (extractAttachmentBilling inv).map some
        | none =>
          match px.CreditNote with
          | some cn => (extractAttachmentBilling cn).map some
          | none =>
            match px.AttachedDocument with
            | some ad => (extractBilling ad).map some
            | none => .ok none
      r.mapError fun _ => .extractFailed

/-- `parse(xmlPath)` (parser.js:189-197): the outer acceptance gate rejecting
an empty `id` (`'La factura no tiene un ID'`). -/
def parseBillingDocument (parsedXML : Option BillingDocumentXML) :
    Except ParseError Billing := do
  let data ← parseXMLData parsedXML
  match data with
  | none => .error .nullDataTypeError
  | some b => if b.id = "" then .error .missingId else .ok b

/-- Decidable equality for `Except`, used to evaluate the model at concrete
inputs. -/
instance {ε α : Type} [DecidableEq ε] [DecidableEq α] : DecidableEq (Except ε α)
  | .ok a, .ok b =>
    if h : a = b then .isTrue (by rw [h]) else .isFalse (by simp [h])
  | .ok _, .error _ => .isFalse (by simp)
  | .error _, .ok _ => .isFalse (by simp)
  | .error a, .error b =>
    if h : a = b then .isTrue (by rw [h]) else .isFalse (by simp [h])

/-! ## Specification-side reading of the id fallback chain -/

/-- First-present-wins choice between two optional values, written as a
transparent helper for the specification-side fallback chain. -/
def orO {α : Type} : Option α → Option α → Option α
  | some v, _ => some v
  | none, b => b

/-- The id fallback chain as the specification words it: the first present
link wins and every absent link (including an absent
`ParentDocumentLineReference.DocumentReference`) is simply skipped, with
`ParentDocumentID = "null"` treated as absent. Written from the spec's words
for comparison with the source-derived `extractID`. -/
def idChainSpec (d : BillingDocument) (att : Option AttachmentDocData) : Option String :=
  orO (att.bind (·.ID))
    (orO ((att.bind (·.Invoice)).bind (·.ID))
      (orO ((att.bind (·.CreditNote)).bind (·.ID))
        (orO (if d.ParentDocumentID = some "null" then none else d.ParentDocumentID)
          (orO d.AltID
            (orO ((d.ParentDocumentLineReference.bind (·.DocumentReference)).bind (·.ID))
              d.ID)))))

/-- The exact condition under which the source's `#extractID` throws: every
link before the `ParentDocumentLineReference` link is absent and the document
has a `ParentDocumentLineReference` without a `DocumentReference`. -/
def idChainThrows (d : BillingDocument) (att : Option AttachmentDocData) : Bool :=
  (att.bind (·.ID)).isNone &&
  ((att.bind (·.Invoice)).bind (·.ID)).isNone &&
  ((att.bind (·.CreditNote)).bind (·.ID)).isNone &&
  (if d.ParentDocumentID = some "null" then none else d.ParentDocumentID).isNone &&
  d.AltID.isNone &&
  (match d.ParentDocumentLineReference with
   | some plr => plr.DocumentReference.isNone
   | none => false)

lemma extractID_eq_spec_of_not_throws (d : BillingDocument) (att : Option AttachmentDocData)
    (h : idChainThrows d att = false) :
    extractID d att = .ok ((idChainSpec d att).getD "") := by
  unfold extractID idChainSpec
  rcases h1 : att.bind (·.ID) with _ | v
  · rcases h2 : (att.bind (·.Invoice)).bind (·.ID) with _ | v
    · rcases h3 : (att.bind (·.CreditNote)).bind (·.ID) with _ | v
      · rcases h4 : (if d.ParentDocumentID = some "null" then none
                     else d.ParentDocumentID) with _ | v
        · rcases h5 : d.AltID with _ | v
          · rcases h6 : d.ParentDocumentLineReference with _ | plr
            · simp [h1, h2, h3, h4, h5, h6, orO]
            · rcases h7 : plr.DocumentReference with _ | dr
              · exfalso
                simp [idChainThrows, h1, h2, h3, h4, h5, h6, h7] at h
              · rcases h8 : dr.ID with _ | v
                · simp [h1, h2, h3, h4, h5, h6, h7, h8, orO]
                · simp [h1, h2, h3, h4, h5, h6, h7, h8, orO]
          · simp [h1, h2, h3, h4, h5, orO]
        · simp [h1, h2, h3, h4, orO]
      · simp [h1, h2, h3, orO]
    · simp [h1, h2, orO]
  · simp [h1, orO]

lemma extractID_throws (d : BillingDocument) (att : Option AttachmentDocData)
    (h : idChainThrows d att = true) :
    extractID d att = .error .typeError := by
  unfold idChainThrows at h
  simp only [Bool.and_eq_true, Option.isNone_iff_eq_none] at h
  obtain ⟨⟨⟨⟨⟨h1, h2⟩, h3⟩, h4⟩, h5⟩, h6⟩ := h
  rcases hp : d.ParentDocumentLineReference with _ | plr
  · rw [hp] at h6
    simp at h6
  · rw [hp] at h6
    simp only [Option.isNone_iff_eq_none] at h6
    unfold extractID
    simp [h1, h2, h3, h4, h5, hp, h6]

lemma extractID_null_pdid (d : BillingDocument) (att : Option AttachmentDocData)
    (h : d.ParentDocumentID = some "null") :
    extractID d att = extractID { d with ParentDocumentID := none } att := by
  unfold extractID
  simp [h]

/-! ## Concrete documents used by the claims -/

/-- The minimal `Invoice` of the round-trip claim: no `Attachment` element. -/
def minimalInvoice : BillingDocument :=
  { emptyDocument with
    ID := some "X", UUID := some "Y", IssueDate := some "2024-01-01",
    AccountingSupplierParty := some ⟨some ⟨some ⟨some "1", some "A"⟩⟩⟩,
    AccountingCustomerParty := some ⟨some ⟨some ⟨some "2", some "B"⟩⟩⟩ }

/-- The same document repaired with an `Attachment` element whose CDATA
payload parses to a document with none of the consulted fields. -/
def minimalInvoiceWithAttachment : BillingDocument :=
  { minimalInvoice with
    Attachment := some ⟨some ⟨some ⟨some ⟨none, none, none, none⟩⟩⟩⟩ }

/-- An `Invoice` whose supplier entity is present but has no
`PartyTaxScheme`. -/
def missingTaxSchemeInvoice : BillingDocument :=
  { minimalInvoiceWithAttachment with AccountingSupplierParty := some ⟨some ⟨none⟩⟩ }

/-- A document with an own `ID` and a `ParentDocumentLineReference` lacking a
`DocumentReference`. -/
def plrNoDocRefDoc : BillingDocument :=
  { emptyDocument with ID := some "Z", ParentDocumentLineReference := some ⟨none⟩ }

/-- A document whose `ParentDocumentID` is the literal string `"null"` with
an `AltID` fallback. -/
def nullPdidDoc : BillingDocument :=
  { emptyDocument with ParentDocumentID := some "null", AltID := some "ALT" }

/-! ## Claim theorems C1, C2, C4 -/

/-- C1: the round-trip claim fails on the code. `#extractAttachment`
dereferences `document.Attachment.ExternalReference` with no optional
chaining, so on the minimal `Invoice` (which has no `Attachment` element)
extraction throws a `TypeError`, surfaced by `#parseXML` as
`'Error al leer los datos de la factura'` — it does not succeed. The third
conjunct isolates the slip: with an `Attachment` element present (parsing to
an empty payload) extraction returns exactly the claimed record, as the
spec's round-trip property and the source's own jsdoc
(`@param {Attachment | null | undefined}`) intend. -/
theorem C1_minimal_invoice_round_trip :
    extractAttachmentBilling minimalInvoice = .error .typeError ∧
    parseBillingDocument (some ⟨some minimalInvoice, none, none⟩) = .error .extractFailed ∧
    extractAttachmentBilling minimalInvoiceWithAttachment =
      .ok ⟨"X", some "Y", some "2024-01-01", 0, ⟨"1", "A"⟩, ⟨"2", "B"⟩⟩ :=
  ⟨rfl, rfl, rfl⟩

/-- C2 counterexample: a present party entity whose `PartyTaxScheme` is
absent makes the projection throw a `TypeError`
(`entity?.PartyTaxScheme.CompanyID` only guards `entity`), and the whole
extraction of an otherwise-complete `Invoice` fails with it — refuting "never
fails with a missing-field error" for absent sub-fields. -/
theorem C2_missing_taxscheme_counterexample :
    extractEntityData (some ⟨none⟩) = .error .typeError ∧
    extractAttachmentBilling missingTaxSchemeInvoice = .error .typeError ∧
    parseBillingDocument (some ⟨some missingTaxSchemeInvoice, none, none⟩) =
      .error .extractFailed :=
  ⟨rfl, rfl, rfl⟩

/-- C2 amended: the projection defaults to `{nit:'', nombre:''}` only when
the entity itself is absent; a present entity with an absent
`PartyTaxScheme` raises a `TypeError` (a missing-field failure); when
`PartyTaxScheme` is present, absent `CompanyID`/`RegistrationName` default to
the empty string. -/
theorem C2_entity_projection_amended (entity : Option PartyData) :
    (entity = none → extractEntityData entity = .ok ⟨"", ""⟩) ∧
    (∀ e, entity = some e → e.PartyTaxScheme = none →
      extractEntityData entity = .error .typeError) ∧
    (∀ e pts, entity = some e → e.PartyTaxScheme = some pts →
      extractEntityData entity = .ok ⟨pts.CompanyID.getD "", pts.RegistrationName.getD ""⟩) := by
  refine ⟨fun h => by simp [h, extractEntityData],
    fun e he hpts => by simp [he, hpts, extractEntityData],
    fun e pts he hpts => ?_⟩
  simp only [he, extractEntityData, hpts]
  cases pts.CompanyID <;> cases pts.RegistrationName <;> rfl

/-- C2 amended, witness at concrete entities. -/
theorem C2_entity_projection_amended_witness :
    extractEntityData none = .ok ⟨"", ""⟩ ∧
    extractEntityData (some ⟨none⟩) = .error .typeError ∧
    extractEntityData (some ⟨some ⟨some "9", none⟩⟩) = .ok ⟨"9", ""⟩ :=
  ⟨(C2_entity_projection_amended none).1 rfl,
   (C2_entity_projection_amended (some ⟨none⟩)).2.1 ⟨none⟩ rfl rfl,
   (C2_entity_projection_amended (some ⟨some ⟨some "9", none⟩⟩)).2.2
     ⟨some ⟨some "9", none⟩⟩ ⟨some "9", none⟩ rfl rfl⟩

/-- C4 counterexample: a document whose `ParentDocumentLineReference` is
present but lacks a `DocumentReference` (and whose earlier chain links are
absent) makes `#extractID` throw a `TypeError`
(`document.ParentDocumentLineReference?.DocumentReference.ID` does not guard
`DocumentReference`) instead of falling through to the document's own `ID` —
so the extracted id is not "the first non-null value in the chain, otherwise
the empty string" for every document. -/
theorem C4_plr_missing_docref_counterexample :
    extractID plrNoDocRefDoc none = .error .typeError ∧
    idChainSpec plrNoDocRefDoc none = some "Z" :=
  ⟨rfl, rfl⟩

/-- C4 amended: the extracted id is the first non-null value of the claimed
chain (with the literal string `"null"` in `ParentDocumentID` treated as
absent, the chain continuing past it), except that when the chain reaches a
present `ParentDocumentLineReference` without a `DocumentReference` the
extraction throws a `TypeError` instead of continuing. -/
theorem C4_id_chain_amended (d : BillingDocument) (att : Option AttachmentDocData) :
    (idChainThrows d att = false →
      extractID d att = .ok ((idChainSpec d att).getD "")) ∧
    (idChainThrows d att = true → extractID d att = .error .typeError) ∧
    (d.ParentDocumentID = some "null" →
      extractID d att = extractID { d with ParentDocumentID := none } att) :=
  ⟨extractID_eq_spec_of_not_throws d att, extractID_throws d att, extractID_null_pdid d att⟩

/-- C4 amended, witness: the `"null"` string in `ParentDocumentID` is skipped
(the chain continues to `AltID`), and the unguarded `DocumentReference` case
throws. -/
theorem C4_id_chain_amended_witness :
    extractID nullPdidDoc none = .ok "ALT" ∧
    extractID plrNoDocRefDoc none = .error .typeError ∧
    extractID nullPdidDoc none = extractID { nullPdidDoc with ParentDocumentID := none } none :=
  ⟨by rw [(C4_id_chain_amended nullPdidDoc none).1 rfl]; rfl,
   (C4_id_chain_amended plrNoDocRefDoc none).2.1 rfl,
   (C4_id_chain_amended nullPdidDoc none).2.2 rfl⟩

/-! ## String helpers: JS `includes`, `toLowerCase`, first-occurrence `replace` -/

def isPrefixCL : List Char → List Char → Bool
  | [], _ => true
  | _ :: _, [] => false
  | a :: as, b :: bs => a == b && isPrefixCL as bs

def includesCL (sub : List Char) : List Char → Bool
  | [] => sub.isEmpty
  | c :: cs => isPrefixCL sub (c :: cs) || includesCL sub cs

/-- JS `String.prototype.includes(sub)`: substring containment. -/
def includesStr (s sub : String) : Bool := includesCL sub.data s.data

def replFirstCL (sub repl : List Char) : List Char → List Char
  | [] => []
  | c :: cs =>
    if isPrefixCL sub (c :: cs) && !sub.isEmpty then repl ++ (c :: cs).drop sub.length
    else c :: replFirstCL sub repl cs

/-- JS `String.prototype.replace(sub, repl)` with a string pattern: replaces
only the first occurrence. -/
def replaceFirstStr (s sub repl : String) : String :=
  if sub.isEmpty then ⟨repl.data ++ s.data⟩ else ⟨replFirstCL sub.data repl.data s.data⟩

/-- JS `toLowerCase` (the two agree on the ASCII filenames involved). -/
def lowerStr (s : String) : String := ⟨s.data.map Char.toLower⟩

/-! ## Attachment Router (`#processMessage` loop, processor.js:171-201) -/

/-- One body-structure child node: its part path and the optional
`dispositionParameters.filename`. -/
structure PartNode where
  part : String
  dispositionFilename : Option String
deriving Repr, DecidableEq

/-- The three routing variables `xmlNode`, `pdfNode`, `zipNode`. -/
structure Classified where
  xmlNode : Option String
  pdfNode : Option String
  zipNode : Option String
deriving Repr, DecidableEq

/-- One iteration of the source's routing loop: a falsy (absent or empty)
filename is skipped, and each of the three `includes` checks overwrites the
corresponding variable on a match — no first-wins guard. -/
def routeStep (acc : Classified) (n : PartNode) : Classified :=
  match n.dispositionFilename with
  | none => acc
  | some f =>
    if f = "" then acc
    else
      let fl := lowerStr f
      let a1 := if includesStr fl ".xml" then { acc with xmlNode := some n.part } else acc
      let a2 := if includesStr fl ".pdf" then { a1 with pdfNode := some n.part } else a1
      if includesStr fl ".zip" then { a2 with zipNode := some n.part } else a2

/-- The routing loop over a message's child nodes. -/
def classifyParts (ns : List PartNode) : Classified :=
  ns.foldl routeStep ⟨none, none, none⟩

/-- Whether a node's filename matches a suffix under the source's test
(case-insensitive containment, falsy filenames skipped). -/
def matchesSuffix (sfx : String) (n : PartNode) : Bool :=
  match n.dispositionFilename with
  | none => false
  | some f => if f = "" then false else includesStr (lowerStr f) sfx

/-- The part of the last node in list order whose filename matches the
suffix. -/
def lastMatching (sfx : String) : List PartNode → Option String
  | [] => none
  | n :: ns =>
    match lastMatching sfx ns with
    | some v => some v
    | none => if matchesSuffix sfx n then some n.part else none

lemma orO_none {α : Type} (a : Option α) : orO a none = a := by
  cases a <;> rfl

lemma routeStep_xmlNode (acc : Classified) (n : PartNode) :
    (routeStep acc n).xmlNode =
      if matchesSuffix ".xml" n then some n.part else acc.xmlNode := by
  unfold routeStep matchesSuffix
  rcases n.dispositionFilename with _ | f
  · rfl
  · by_cases hf : f = ""
    · simp [hf]
    · by_cases hx : includesStr (lowerStr f) ".xml" <;>
        by_cases hp : includesStr (lowerStr f) ".pdf" <;>
        by_cases hz : includesStr (lowerStr f) ".zip" <;>
        simp [hf, hx, hp, hz]

lemma routeStep_pdfNode (acc : Classified) (n : PartNode) :
    (routeStep acc n).pdfNode =
      if matchesSuffix ".pdf" n then some n.part else acc.pdfNode := by
  unfold routeStep matchesSuffix
  rcases n.dispositionFilename with _ | f
  · rfl
  · by_cases hf : f = ""
    · simp [hf]
    · by_cases hx : includesStr (lowerStr f) ".xml" <;>
        by_cases hp : includesStr (lowerStr f) ".pdf" <;>
        by_cases hz : includesStr (lowerStr f) ".zip" <;>
        simp [hf, hx, hp, hz]

lemma routeStep_zipNode (acc : Classified) (n : PartNode) :
    (routeStep acc n).zipNode =
      if matchesSuffix ".zip" n then some n.part else acc.zipNode := by
  unfold routeStep matchesSuffix
  rcases n.dispositionFilename with _ | f
  · rfl
  · by_cases hf : f = ""
    · simp [hf]
    · by_cases hx : includesStr (lowerStr f) ".xml" <;>
        by_cases hp : includesStr (lowerStr f) ".pdf" <;>
        by_cases hz : includesStr (lowerStr f) ".zip" <;>
        simp [hf, hx, hp, hz]

lemma lastMatching_cons (sfx : String) (n : PartNode) (ns : List PartNode) :
    lastMatching sfx (n :: ns) =
      orO (lastMatching sfx ns) (if matchesSuffix sfx n then some n.part else none) := by
  cases hl : lastMatching sfx ns <;> simp [lastMatching, hl, orO]

lemma classify_foldl_xml (ns : List PartNode) :
    ∀ acc, (ns.foldl routeStep acc).xmlNode = orO (lastMatching ".xml" ns) acc.xmlNode := by
  induction ns with
  | nil => intro acc; simp [lastMatching, orO]
  | cons n ns ih =>
    intro acc
    rw [List.foldl_cons, ih, lastMatching_cons]
    rcases hl : lastMatching ".xml" ns with _ | v
    · simp only [hl, orO]
      rw [routeStep_xmlNode]
      by_cases hm : matchesSuffix ".xml" n = true <;> simp [hm, orO]
    · simp [hl, orO]

lemma classify_foldl_pdf (ns : List PartNode) :
    ∀ acc, (ns.foldl routeStep acc).pdfNode = orO (lastMatching ".pdf" ns) acc.pdfNode := by
  induction ns with
  | nil => intro acc; simp [lastMatching, orO]
  | cons n ns ih =>
    intro acc
    rw [List.foldl_cons, ih, lastMatching_cons]
    rcases hl : lastMatching ".pdf" ns with _ | v
    · simp only [hl, orO]
      rw [routeStep_pdfNode]
      by_cases hm : matchesSuffix ".pdf" n = true <;> simp [hm, orO]
    · simp [hl, orO]

lemma classify_foldl_zip (ns : List PartNode) :
    ∀ acc, (ns.foldl routeStep acc).zipNode = orO (lastMatching ".zip" ns) acc.zipNode := by
  induction ns with
  | nil => intro acc; simp [lastMatching, orO]
  | cons n ns ih =>
    intro acc
    rw [List.foldl_cons, ih, lastMatching_cons]
    rcases hl : lastMatching ".zip" ns with _ | v
    · simp only [hl, orO]
      rw [routeStep_zipNode]
      by_cases hm : matchesSuffix ".zip" n = true <;> simp [hm, orO]
    · simp [hl, orO]

/-- Complete characterization of the routing loop: for each suffix type, the
last matching part in list order wins. -/
lemma classifyParts_eq (ns : List PartNode) :
    classifyParts ns =
      ⟨lastMatching ".xml" ns, lastMatching ".pdf" ns, lastMatching ".zip" ns⟩ := by
  have hx := classify_foldl_xml ns ⟨none, none, none⟩
  have hp := classify_foldl_pdf ns ⟨none, none, none⟩
  have hz := classify_foldl_zip ns ⟨none, none, none⟩
  rw [orO_none] at hx hp hz
  unfold classifyParts
  rcases h : ns.foldl routeStep ⟨none, none, none⟩ with ⟨x, p, z⟩
  rw [h] at hx hp hz
  simp only at hx hp hz
  rw [hx, hp, hz]

/-! ## Strategy selection (`#processMessage`, processor.js:195-200) -/

inductive Strategy where
  | directPair
  | bundle
  | skip
deriving Repr, DecidableEq

/-- JS truthiness of the routing variables: `undefined`/`null` and the empty
string are falsy. -/
def truthy : Option String → Bool
  | none => false
  | some s => !(s == "")

/-- The dispatch at the end of `#processMessage`: `if (xmlNode && pdfNode)`
→ direct pair, `else if (zipNode)` → bundle, else nothing happens. -/
def selectStrategy (c : Classified) : Strategy :=
  if truthy c.xmlNode && truthy c.pdfNode then .directPair
  else if truthy c.zipNode then .bundle
  else .skip

/-- The strategy the orchestrator picks for a message's part list. -/
def processMessageStrategy (ns : List PartNode) : Strategy :=
  selectStrategy (classifyParts ns)

lemma lastMatching_mem (sfx : String) (ns : List PartNode) (v : String)
    (h : lastMatching sfx ns = some v) :
    ∃ n ∈ ns, matchesSuffix sfx n = true ∧ n.part = v := by
  induction ns with
  | nil => simp [lastMatching] at h
  | cons n ns ih =>
    rw [lastMatching_cons] at h
    rcases hl : lastMatching sfx ns with _ | u
    · rw [hl] at h
      simp only [orO] at h
      by_cases hm : matchesSuffix sfx n = true
      · rw [if_pos hm] at h
        cases h
        exact ⟨n, List.mem_cons_self n ns, hm, rfl⟩
      · rw [if_neg hm] at h
        cases h
    · rw [hl] at h
      simp only [orO] at h
      cases h
      rcases ih hl with ⟨w, hw, hwt, hwp⟩
      exact ⟨w, List.mem_cons_of_mem n hw, hwt, hwp⟩

lemma lastMatching_of_ex (sfx : String) (ns : List PartNode)
    (h : ∃ n ∈ ns, matchesSuffix sfx n = true) :
    ∃ v, lastMatching sfx ns = some v ∧ ∃ n ∈ ns, n.part = v := by
  induction ns with
  | nil => simp at h
  | cons n ns ih =>
    rw [lastMatching_cons]
    rcases hl : lastMatching sfx ns with _ | v
    · rcases h with ⟨m, hm, hmt⟩
      rcases List.mem_cons.mp hm with hh | ht
      · subst hh
        exact ⟨m.part, by simp [orO, hmt], m, by simp⟩
      · rcases ih ⟨m, ht, hmt⟩ with ⟨v, hv, _, _, _⟩
        rw [hl] at hv
        cases hv
    · rcases lastMatching_mem sfx ns v hl with ⟨w, hw, hwt, hwp⟩
      exact ⟨v, by simp [orO], w, List.mem_cons_of_mem n hw, hwp⟩

lemma lastMatching_none_of_not_ex (sfx : String) (ns : List PartNode)
    (h : ¬ ∃ n ∈ ns, matchesSuffix sfx n = true) :
    lastMatching sfx ns = none := by
  rcases hl : lastMatching sfx ns with _ | v
  · rfl
  · exact absurd (by
      rcases lastMatching_mem sfx ns v hl with ⟨w, hw, hwt, _⟩
      exact ⟨w, hw, hwt⟩) h

/-! ## Claim theorems C3, C7 -/

/-- C3 counterexample: with two `.xml`-suffixed parts in the list, the
routing loop overwrites `xmlNode` on every match, so the second (last) part
wins — not the first as claimed. -/
theorem C3_first_match_counterexample :
    (classifyParts [⟨"1", some "a.xml"⟩, ⟨"2", some "b.xml"⟩]).xmlNode ≠ some "1" ∧
    (classifyParts [⟨"1", some "a.xml"⟩, ⟨"2", some "b.xml"⟩]).xmlNode = some "2" := by
  refine ⟨by decide, by decide⟩

/-- C3 amended: the classification is a total function of the part list
(defined for every list, raising nothing), and for each of the three suffix
types the selected part is the LAST part in list order whose filename
matches (case-insensitive containment, falsy filenames skipped) — not the
first. -/
theorem C3_router_last_match_total (ns : List PartNode) :
    classifyParts ns =
      ⟨lastMatching ".xml" ns, lastMatching ".pdf" ns, lastMatching ".zip" ns⟩ :=
  classifyParts_eq ns

lemma truthy_lastMatching_of_ex (sfx : String) (ns : List PartNode)
    (hne : ∀ n ∈ ns, n.part ≠ "")
    (h : ∃ n ∈ ns, matchesSuffix sfx n = true) :
    truthy (lastMatching sfx ns) = true := by
  rcases lastMatching_of_ex sfx ns h with ⟨v, hv, n, hn, hp⟩
  rw [hv]
  subst hp
  simp [truthy, hne n hn]

lemma truthy_lastMatching_of_not_ex (sfx : String) (ns : List PartNode)
    (h : ¬ ∃ n ∈ ns, matchesSuffix sfx n = true) :
    truthy (lastMatching sfx ns) = false := by
  rw [lastMatching_none_of_not_ex sfx ns h]
  rfl

/-- C7: strategy selection. If the part list holds both an `.xml`- and a
`.pdf`-matching part, the direct-pair strategy is chosen (even when a `.zip`
part is also present); otherwise a `.zip`-matching part selects the bundle
strategy; otherwise the message is skipped. The hypothesis that part
identifiers are non-empty reflects IMAP body-structure part paths (an empty
`part` would be falsy in the source's `if (xmlNode && pdfNode)`). -/
theorem C7_strategy_selection (ns : List PartNode)
    (hne : ∀ n ∈ ns, n.part ≠ "") :
    ((∃ n ∈ ns, matchesSuffix ".xml" n = true) → (∃ n ∈ ns, matchesSuffix ".pdf" n = true) →
      processMessageStrategy ns = .directPair) ∧
    (¬ ((∃ n ∈ ns, matchesSuffix ".xml" n = true) ∧ (∃ n ∈ ns, matchesSuffix ".pdf" n = true)) →
      (∃ n ∈ ns, matchesSuffix ".zip" n = true) →
      processMessageStrategy ns = .bundle) ∧
    (¬ ((∃ n ∈ ns, matchesSuffix ".xml" n = true) ∧ (∃ n ∈ ns, matchesSuffix ".pdf" n = true)) →
      ¬ (∃ n ∈ ns, matchesSuffix ".zip" n = true) →
      processMessageStrategy ns = .skip) := by
  unfold processMessageStrategy
  rw [classifyParts_eq]
  refine ⟨fun hx hp => ?_, fun hnb hz => ?_, fun hnb hnz => ?_⟩
  · unfold selectStrategy
    simp only [truthy_lastMatching_of_ex ".xml" ns hne hx,
      truthy_lastMatching_of_ex ".pdf" ns hne hp]
    rfl
  · unfold selectStrategy
    have hff : (truthy (lastMatching ".xml" ns) && truthy (lastMatching ".pdf" ns)) = false := by
      rcases not_and_or.mp hnb with hn | hn
      · simp [truthy_lastMatching_of_not_ex ".xml" ns hn]
      · simp [truthy_lastMatching_of_not_ex ".pdf" ns hn]
    simp [hff, truthy_lastMatching_of_ex ".zip" ns hne hz]
  · unfold selectStrategy
    have hff : (truthy (lastMatching ".xml" ns) && truthy (lastMatching ".pdf" ns)) = false := by
      rcases not_and_or.mp hnb with hn | hn
      · simp [truthy_lastMatching_of_not_ex ".xml" ns hn]
      · simp [truthy_lastMatching_of_not_ex ".pdf" ns hn]
    simp [hff, truthy_lastMatching_of_not_ex ".zip" ns hnz]

/-- C7 witness: a message with xml+pdf+zip parts goes direct-pair, one with
only a zip goes bundle, one with neither is skipped. -/
theorem C7_strategy_selection_witness :
    processMessageStrategy
      [⟨"1", some "f.xml"⟩, ⟨"2", some "g.pdf"⟩, ⟨"3", some "h.zip"⟩] = .directPair ∧
    processMessageStrategy [⟨"1", some "h.zip"⟩] = .bundle ∧
    processMessageStrategy [⟨"1", some "readme.txt"⟩] = .skip :=
  ⟨(C7_strategy_selection
      [⟨"1", some "f.xml"⟩, ⟨"2", some "g.pdf"⟩, ⟨"3", some "h.zip"⟩]
      (by decide)).1 (by decide) (by decide),
   (C7_strategy_selection [⟨"1", some "h.zip"⟩] (by decide)).2.1 (by decide) (by decide),
   (C7_strategy_selection [⟨"1", some "readme.txt"⟩] (by decide)).2.2
     (by decide) (by decide)⟩

/-! ## Effect traces for the orchestrator (`src/processor.js`)

Each routine is modelled as a pure function from an environment — the
outcomes of its external collaborators (mail store, filesystem, external
document builder) — to the list of side effects it performs, in program
order. -/

/-- One observable side effect of the orchestrator. -/
inductive Effect where
  | consoleError (msg : String)
  | logInfo (msg : String)
  | logError (msg : String)
  | download (uid part : String)
  | writeFile (path : String)
  | writeJson (path : String) (data : Billing)
  | parseXmlFile (path : String)
  | execBuilder (jsonPath xmlPath pdfPath : String)
  | moveMsg (uid mailbox : String)
  | rmDir (dir : String)
  | mkdirD (dir : String)
  | drain (entryPath : String)
  | fetch (range : String)
  | msgStrategy (uid : String) (strat : Strategy)
  | lockRelease
  | logout
  | processExit (code : Nat)
deriving Repr, DecidableEq

/-- `#moveMessage` (processor.js:34-50): requests the move, logs, and
swallows any failure of the move itself (logging it instead). `moveOk` is
the collaborator-provided outcome of `messageMove`. -/
def moveMessage (moveOk : Bool) (uid mailbox : String) : List Effect :=
  [Effect.logInfo ("Requesting move to " ++ mailbox ++ " - MSG: " ++ uid),
   Effect.moveMsg uid mailbox] ++
  (if moveOk then [Effect.logInfo ("Message moved to " ++ mailbox ++ " - MSG: " ++ uid)]
   else [Effect.consoleError "move failed", Effect.logError "Error moving message"])

/-! ### Zip Unpacker / bundle strategy (`#processZipNode`, processor.js:94-164) -/

/-- One archive entry: its path and the outcome of `fs.writeFile` for it
(`none` = the write succeeds, `some msg` = it rejects with this error). -/
structure ZipEntry where
  path : String
  writeErr : Option String
deriving Repr, DecidableEq

/-- Environment of one `#processZipNode` run: the download outcome (expected
size and entries on success), the `parser.parse` outcome for the captured xml
path, the json write and builder outcomes, and the mailbox names. -/
structure ZipEnv where
  downloadResult : Except String (Nat × List ZipEntry)
  parseResult : Except String (Option Billing)
  jsonWriteErr : Option String
  execErr : Option String
  moveOk : Bool
  goodMailbox : String
  badMailbox : String
deriving Repr

/-- State of the entry loop: the `xml`/`pdf` capture flags (the source's
entry references), the recorded paths, and the trace so far. -/
structure ZipLoopState where
  xml : Bool
  xmlPath : String
  jsonPath : String
  pdf : Bool
  pdfPath : String
  trace : List Effect
deriving Repr, DecidableEq

/-- The initial loop state (`xml = null`, paths empty). -/
def zipInit : ZipLoopState := ⟨false, "", "", false, "", []⟩

/-- One iteration of `for await (const entry of zip)` (processor.js:114-138).
Mirrors the source exactly: on a `.xml` (resp. `.pdf`) path match the entry
reference and paths are recorded BEFORE the write is attempted, and a write
failure is only logged (`console.error` for xml, `log.error(e.message)` for
pdf) — the captures stay in place. Every entry is then drained. -/
def zipStep (tmpdir : String) (s : ZipLoopState) (e : ZipEntry) : ZipLoopState :=
  let s1 :=
    if includesStr e.path ".xml" then
      let xp := tmpdir ++ "/" ++ e.path
      { s with xml := true, xmlPath := xp, jsonPath := replaceFirstStr xp ".xml" ".json",
               trace := s.trace ++ [Effect.writeFile xp] ++
                 (match e.writeErr with
                  | none => []
                  | some m => [Effect.consoleError m]) }
    else s
  let s2 :=
    if includesStr e.path ".pdf" then
      { s1 with pdf := true, pdfPath := tmpdir ++ "/" ++ e.path,
                trace := s1.trace ++ [Effect.writeFile (tmpdir ++ "/" ++ e.path)] ++
                  (match e.writeErr with
                   | none => []
                   | some m => [Effect.logError m]) }
    else s1
  { s2 with trace := s2.trace ++ [Effect.drain e.path] }

/-- The `catch` block of `#processZipNode` (processor.js:155-163):
`console.error(e)`, the structured `log.error(..., 'Could not process mail
data')` whose error field is the thrown message (modelled as the `logError`
payload), the not-awaited `fs.rm` of the workspace, then the best-effort
move to the failure mailbox. -/
def zipCatch (env : ZipEnv) (uid tmpdir : String) (emsg : String) : List Effect :=
  [Effect.consoleError emsg, Effect.logError emsg, Effect.rmDir tmpdir] ++
  moveMessage env.moveOk uid env.badMailbox

/-- The tail of `#processZipNode` after both captures succeeded
(processor.js:141-151): parse outcome check, json sidecar write, builder
invocation, success move and — only after it — the (not-awaited) workspace
removal; any thrown error lands in `zipCatch`. -/
def zipTail (env : ZipEnv) (uid tmpdir : String) (s : ZipLoopState) : List Effect :=
  match env.parseResult with
  | .error e => zipCatch env uid tmpdir e
  | .ok none => zipCatch env uid tmpdir "Could not get data from XML"
  | .ok (some data) =>
    [Effect.writeJson s.jsonPath data] ++
    (match env.jsonWriteErr with
     | some m => zipCatch env uid tmpdir m
     | none =>
       [Effect.execBuilder s.jsonPath s.xmlPath s.pdfPath] ++
       (match env.execErr with
        | some m => zipCatch env uid tmpdir m
        | none => moveMessage env.moveOk uid env.goodMailbox ++ [Effect.rmDir tmpdir]))

/-- `#processZipNode(zipNode, tmpdir, msg)` (processor.js:94-164): download,
4 MiB size ceiling, entry loop, then — if both an xml and a pdf entry were
captured — the `zipTail` steps; otherwise the `'No contenía una factura
válida'` failure. Any thrown error lands in `zipCatch`. -/
def processZipNode (env : ZipEnv) (zipNode uid tmpdir : String) : List Effect :=
  Effect.download uid zipNode ::
  (match env.downloadResult with
   | .error e => zipCatch env uid tmpdir e
   | .ok (size, entries) =>
     if size > 4 * 1024 * 1024 then zipCatch env uid tmpdir "Size too big"
     else
       let s := entries.foldl (zipStep tmpdir) zipInit
       if s.xml && s.pdf then
         s.trace ++ [Effect.parseXmlFile s.xmlPath] ++ zipTail env uid tmpdir s
       else s.trace ++ zipCatch env uid tmpdir "No contenía una factura válida")

/-! ### Direct-pair strategy (`#processXmlPdfNode`, processor.js:58-86) -/

/-- Environment of a `#processXmlPdfNode` run (exercised only if the
undeclared identifiers were in scope). -/
structure DirectEnv where
  xmlFilename : String
  pdfFilename : String
  downloadOk : Bool
  execOk : Bool
  moveOk : Bool
  goodMailbox : String
  badMailbox : String
deriving Repr, DecidableEq

/-- Human-readable message of a thrown error (JS `console.error`). -/
def errText : JsErr → String
  | .typeError => "TypeError"
  | .referenceError n => "ReferenceError: " ++ n ++ " is not defined"
  | .appError m => m

/-- The `try` block of `#processXmlPdfNode`. Its first expression evaluates
`msg.uid.toString()`, so the block throws a `ReferenceError` immediately
when `msg` is unbound (the source declares only `(xmlNode, pdfNode)`;
`msgBinding` carries the value `msg` would have were it in scope). Were
`msg` bound, the block would download both parts, build paths from the
NOT-awaited `fs.mkdtemp` promise (which stringifies to
`"[object Promise]"` in the template literal), write both files, invoke the
builder, and then throw a `ReferenceError` on `client` — also not in
scope — while calling `#moveMessage`. -/
def processXmlPdfTry (msgBinding : Option String) (xmlNode pdfNode : String)
    (env : DirectEnv) : List Effect × Except JsErr Unit :=
  match msgBinding with
  | none => ([], .error (.referenceError "msg"))
  | some uid =>
    if env.downloadOk then
      let tmp := "[object Promise]"
      let xmlPath := tmp ++ "/" ++ env.xmlFilename
      let pdfPath := tmp ++ "/" ++ env.pdfFilename
      if env.execOk then
        ([Effect.download uid xmlNode, Effect.download uid pdfNode,
          Effect.writeFile xmlPath, Effect.writeFile pdfPath,
          Effect.execBuilder (replaceFirstStr xmlPath ".xml" ".json") xmlPath pdfPath],
         .error (.referenceError "client"))
      else
        ([Effect.download uid xmlNode, Effect.download uid pdfNode,
          Effect.writeFile xmlPath, Effect.writeFile pdfPath,
          Effect.execBuilder (replaceFirstStr xmlPath ".xml" ".json") xmlPath pdfPath],
         .error (.appError "exec failed"))
    else
      ([Effect.download uid xmlNode, Effect.download uid pdfNode],
       .error (.appError "download failed"))

/-- The `catch` block of `#processXmlPdfNode` (processor.js:77-85):
`console.error(e)`, the `log.error(..., 'Error processing Message')`, then
`msg.uid.toString()` again — throwing a second `ReferenceError` out of the
catch when `msg` is unbound, so the failure move never happens. -/
def processXmlPdfCatch (msgBinding : Option String) (env : DirectEnv) (e : JsErr) :
    List Effect × Except JsErr Unit :=
  let logged := [Effect.consoleError (errText e), Effect.logError "Error processing Message"]
  match msgBinding with
  | none => (logged, .error (.referenceError "msg"))
  | some uid => (logged ++ moveMessage env.moveOk uid env.badMailbox, .ok ())

/-- `#processXmlPdfNode(xmlNode, pdfNode)` as declared (processor.js:58):
the identifier `msg` used throughout the body is neither a parameter nor a
module-level binding of processor.js, so the routine runs with
`msgBinding = none`. -/
def processXmlPdfNode (xmlNode pdfNode : String) (env : DirectEnv) :
    List Effect × Except JsErr Unit :=
  let msgBinding : Option String := none
  match processXmlPdfTry msgBinding xmlNode pdfNode env with
  | (t, .ok ()) => (t, .ok ())
  | (t, .error e) =>
    let c := processXmlPdfCatch msgBinding env e
    (t ++ c.1, c.2)

/-! ### Fetch loop (`#fetchMessages` / `processMessages`, processor.js:206-243) -/

/-- A fetched message: its uid and body-structure child nodes. -/
structure MsgModel where
  uid : String
  nodes : List PartNode
deriving Repr, DecidableEq

/-- Environment of one polling cycle. `mailboxIsBoolean` models
`typeof client.mailbox === 'boolean'` (imapflow sets `mailbox` to `false`
when no mailbox is selected); `usable` is `client.usable`. -/
structure FetchEnv where
  mailboxIsBoolean : Bool
  usable : Bool
  mkdirErr : Option String
  fetchResult : Except String (List MsgModel)
deriving Repr

/-- `#fetchMessages` (processor.js:206-236): create the cycle timestamp
directory, return early when no mailbox is selected or the client is not
usable, otherwise fetch `1:*` and process each message in order (each
message's dispatch is summarized by the strategy `#processMessage` computes
for its part list); a fetch failure releases the lock, logs out and exits
the process. -/
def fetchMessages (env : FetchEnv) (timestampDir : String) :
    List Effect × Except JsErr Unit :=
  match env.mkdirErr with
  | some m => ([Effect.mkdirD timestampDir], .error (.appError m))
  | none =>
    let t := [Effect.mkdirD timestampDir]
    if env.mailboxIsBoolean then (t, .ok ())
    else if !env.usable then (t, .ok ())
    else
      match env.fetchResult with
      | .ok msgs =>
        (t ++ [Effect.fetch "1:*"] ++
          msgs.map (fun m => Effect.msgStrategy m.uid (processMessageStrategy m.nodes)),
         .ok ())
      | .error e =>
        (t ++ [Effect.fetch "1:*", Effect.consoleError e, Effect.logError e,
               Effect.lockRelease, Effect.logout, Effect.processExit 1],
         .ok ())

/-- `processMessages` (processor.js:241-243) simply awaits `#fetchMessages`. -/
def processMessages (env : FetchEnv) (timestampDir : String) :
    List Effect × Except JsErr Unit :=
  fetchMessages env timestampDir

/-! ## Lemmas about the zip entry loop -/

lemma zipStep_xml (tmpdir : String) (s : ZipLoopState) (e : ZipEntry) :
    (zipStep tmpdir s e).xml = (s.xml || includesStr e.path ".xml") := by
  unfold zipStep
  by_cases hx : includesStr e.path ".xml" <;>
    by_cases hp : includesStr e.path ".pdf" <;> simp [hx, hp]

lemma zipStep_pdf (tmpdir : String) (s : ZipLoopState) (e : ZipEntry) :
    (zipStep tmpdir s e).pdf = (s.pdf || includesStr e.path ".pdf") := by
  unfold zipStep
  by_cases hx : includesStr e.path ".xml" <;>
    by_cases hp : includesStr e.path ".pdf" <;> simp [hx, hp]

lemma zipStep_paths (tmpdir : String) (s : ZipLoopState) (e : ZipEntry) :
    (zipStep tmpdir s e).xmlPath =
      (if includesStr e.path ".xml" then tmpdir ++ "/" ++ e.path else s.xmlPath) ∧
    (zipStep tmpdir s e).jsonPath =
      (if includesStr e.path ".xml" then
        replaceFirstStr (tmpdir ++ "/" ++ e.path) ".xml" ".json" else s.jsonPath) := by
  unfold zipStep
  by_cases hx : includesStr e.path ".xml" <;>
    by_cases hp : includesStr e.path ".pdf" <;> simp [hx, hp]

lemma zipStep_trace_append (tmpdir : String) (s : ZipLoopState) (e : ZipEntry) :
    ∃ d, (zipStep tmpdir s e).trace = s.trace ++ d := by
  unfold zipStep
  by_cases hx : includesStr e.path ".xml" <;>
    by_cases hp : includesStr e.path ".pdf" <;>
    rcases hw : e.writeErr with _ | m <;>
    simp [hx, hp, hw, List.append_assoc]

lemma zipFold_trace_append (tmpdir : String) (entries : List ZipEntry) :
    ∀ s : ZipLoopState, ∃ d, (entries.foldl (zipStep tmpdir) s).trace = s.trace ++ d := by
  induction entries with
  | nil => intro s; exact ⟨[], by simp⟩
  | cons e es ih =>
    intro s
    rcases ih (zipStep tmpdir s e) with ⟨d1, hd1⟩
    rcases zipStep_trace_append tmpdir s e with ⟨d0, hd0⟩
    exact ⟨d0 ++ d1, by rw [List.foldl_cons, hd1, hd0, List.append_assoc]⟩

lemma zipFold_trace_mono (tmpdir : String) (entries : List ZipEntry)
    (s : ZipLoopState) (x : Effect) (hx : x ∈ s.trace) :
    x ∈ (entries.foldl (zipStep tmpdir) s).trace := by
  rcases zipFold_trace_append tmpdir entries s with ⟨d, hd⟩
  rw [hd]
  exact List.mem_append_left d hx

lemma zipFold_xml (tmpdir : String) (entries : List ZipEntry) :
    ∀ s : ZipLoopState, (entries.foldl (zipStep tmpdir) s).xml =
      (s.xml || entries.any fun e => includesStr e.path ".xml") := by
  induction entries with
  | nil => intro s; simp
  | cons e es ih =>
    intro s
    rw [List.foldl_cons, ih, zipStep_xml, List.any_cons, Bool.or_assoc]

lemma zipFold_pdf (tmpdir : String) (entries : List ZipEntry) :
    ∀ s : ZipLoopState, (entries.foldl (zipStep tmpdir) s).pdf =
      (s.pdf || entries.any fun e => includesStr e.path ".pdf") := by
  induction entries with
  | nil => intro s; simp
  | cons e es ih =>
    intro s
    rw [List.foldl_cons, ih, zipStep_pdf, List.any_cons, Bool.or_assoc]

lemma zipFold_json_inv (tmpdir : String) (entries : List ZipEntry) :
    ∀ s : ZipLoopState,
      (s.xml = true → s.jsonPath = replaceFirstStr s.xmlPath ".xml" ".json") →
      ((entries.foldl (zipStep tmpdir) s).xml = true →
        (entries.foldl (zipStep tmpdir) s).jsonPath =
          replaceFirstStr (entries.foldl (zipStep tmpdir) s).xmlPath ".xml" ".json") := by
  induction entries with
  | nil => intro s hs; exact hs
  | cons e es ih =>
    intro s hs
    rw [List.foldl_cons]
    refine ih (zipStep tmpdir s e) ?_
    intro hx
    rcases zipStep_paths tmpdir s e with ⟨hxp, hjp⟩
    by_cases hm : includesStr e.path ".xml"
    · rw [hxp, hjp, if_pos hm, if_pos hm]
    · rw [zipStep_xml] at hx
      simp [hm] at hx
      rw [hxp, hjp, if_neg hm, if_neg hm]
      exact hs hx

lemma zipStep_logs_xml_fail (tmpdir : String) (s : ZipLoopState) (e : ZipEntry)
    (m : String) (hx : includesStr e.path ".xml" = true) (hw : e.writeErr = some m) :
    Effect.consoleError m ∈ (zipStep tmpdir s e).trace := by
  unfold zipStep
  by_cases hp : includesStr e.path ".pdf" <;> simp [hx, hp, hw]

lemma zipFold_log_mem (tmpdir : String) (entries : List ZipEntry) :
    ∀ s : ZipLoopState, ∀ e ∈ entries, ∀ m : String,
      includesStr e.path ".xml" = true → e.writeErr = some m →
      Effect.consoleError m ∈ (entries.foldl (zipStep tmpdir) s).trace := by
  induction entries with
  | nil => intro s e he; simp at he
  | cons a es ih =>
    intro s e he m hxm hwm
    rcases List.mem_cons.mp he with hh | ht
    · subst hh
      rw [List.foldl_cons]
      exact zipFold_trace_mono tmpdir es (zipStep tmpdir s e) _
        (zipStep_logs_xml_fail tmpdir s e m hxm hwm)
    · rw [List.foldl_cons]
      exact ih (zipStep tmpdir s a) e ht m hxm hwm

/-- When both captures are made, the run reaches the parse step: the parse
and tail follow the loop trace. Shared backbone of the bundle-strategy
claims. -/
lemma processZipNode_reaches_parse (env : ZipEnv) (zipNode uid tmpdir : String)
    (size : Nat) (entries : List ZipEntry)
    (hdl : env.downloadResult = .ok (size, entries))
    (hsz : ¬ size > 4 * 1024 * 1024)
    (hxf : (entries.foldl (zipStep tmpdir) zipInit).xml = true)
    (hpf : (entries.foldl (zipStep tmpdir) zipInit).pdf = true) :
    processZipNode env zipNode uid tmpdir =
      Effect.download uid zipNode ::
        ((entries.foldl (zipStep tmpdir) zipInit).trace ++
          [Effect.parseXmlFile (entries.foldl (zipStep tmpdir) zipInit).xmlPath] ++
          zipTail env uid tmpdir (entries.foldl (zipStep tmpdir) zipInit)) := by
  unfold processZipNode
  rw [hdl]
  simp only [if_neg hsz, hxf, hpf, Bool.and_self, if_pos]

lemma zipCatch_rm_mem (env : ZipEnv) (uid tmpdir emsg : String) :
    Effect.rmDir tmpdir ∈ zipCatch env uid tmpdir emsg := by
  simp [zipCatch]

lemma zipTail_rm_mem (env : ZipEnv) (uid tmpdir : String) (s : ZipLoopState) :
    Effect.rmDir tmpdir ∈ zipTail env uid tmpdir s := by
  unfold zipTail
  rcases env.parseResult with e | _ | data
  · exact zipCatch_rm_mem env uid tmpdir e
  · exact zipCatch_rm_mem env uid tmpdir "Could not get data from XML"
  · rcases hj : env.jsonWriteErr with _ | m
    · rcases hx : env.execErr with _ | m
      · simp [hj, hx, moveMessage]
      · simp only [hj, hx]
        refine List.mem_append_right _ ?_
        refine List.mem_append_right _ ?_
        exact zipCatch_rm_mem env uid tmpdir m
    · simp only [hj]
      refine List.mem_append_right _ ?_
      exact zipCatch_rm_mem env uid tmpdir m

/-! ## Claim theorems C5, C6, C8, C9, C10 -/

/-- A concrete extracted record for the bundle examples. -/
def sampleBilling : Billing := ⟨"X", some "Y", some "2024-01-01", 0, ⟨"1", "A"⟩, ⟨"2", "B"⟩⟩

/-- A fully successful bundle environment: one xml and one pdf entry, both
writes succeed, extraction succeeds, builder succeeds. -/
def zipEnvSuccess : ZipEnv :=
  ⟨.ok (100, [⟨"a.xml", none⟩, ⟨"b.pdf", none⟩]), .ok (some sampleBilling),
   none, none, true, "GOOD", "BAD"⟩

/-- A bundle environment in which both entry writes fail and the later file
read therefore fails at the parse step. -/
def zipEnvWritesFail : ZipEnv :=
  ⟨.ok (100, [⟨"a.xml", some "EACCES: permission denied"⟩,
              ⟨"b.pdf", some "EACCES: permission denied"⟩]),
   .error "ENOENT: no such file or directory",
   none, none, true, "GOOD", "BAD"⟩

/-- C5 counterexample: a bundle whose xml and pdf entries both fail to write
does NOT end with the `'No contenía una factura válida'` outcome — the
capture variables are set before the writes, so the run proceeds to the
parse step and fails there instead. -/
theorem C5_failed_writes_counterexample :
    Effect.parseXmlFile "w/a.xml" ∈ processZipNode zipEnvWritesFail "3" "7" "w" ∧
    Effect.logError "No contenía una factura válida" ∉
      processZipNode zipEnvWritesFail "3" "7" "w" ∧
    Effect.consoleError "No contenía una factura válida" ∉
      processZipNode zipEnvWritesFail "3" "7" "w" ∧
    Effect.logError "ENOENT: no such file or directory" ∈
      processZipNode zipEnvWritesFail "3" "7" "w" := by
  refine ⟨by decide, by decide, by decide, by decide⟩

/-- C5 amended: a failed entry write is logged (`console.error` for the xml
entry) and the unpack continues, but the entry still counts as captured —
the paths are recorded before the write — so a bundle containing both an xml
and a pdf entry always proceeds to the XML parse step (and fails there when
the files are missing), never with `NoValidInvoice`. -/
theorem C5_write_failure_capture_amended (env : ZipEnv) (zipNode uid tmpdir : String)
    (size : Nat) (entries : List ZipEntry)
    (hdl : env.downloadResult = .ok (size, entries))
    (hsz : ¬ size > 4 * 1024 * 1024)
    (hx : ∃ e ∈ entries, includesStr e.path ".xml" = true)
    (hp : ∃ e ∈ entries, includesStr e.path ".pdf" = true) :
    processZipNode env zipNode uid tmpdir =
      Effect.download uid zipNode ::
        ((entries.foldl (zipStep tmpdir) zipInit).trace ++
          [Effect.parseXmlFile (entries.foldl (zipStep tmpdir) zipInit).xmlPath] ++
          zipTail env uid tmpdir (entries.foldl (zipStep tmpdir) zipInit)) ∧
    (∀ e ∈ entries, ∀ m : String,
      includesStr e.path ".xml" = true → e.writeErr = some m →
      Effect.consoleError m ∈ (entries.foldl (zipStep tmpdir) zipInit).trace) := by
  have hxf : (entries.foldl (zipStep tmpdir) zipInit).xml = true := by
    rw [zipFold_xml]
    simp only [zipInit, Bool.false_or, List.any_eq_true]
    exact hx
  have hpf : (entries.foldl (zipStep tmpdir) zipInit).pdf = true := by
    rw [zipFold_pdf]
    simp only [zipInit, Bool.false_or, List.any_eq_true]
    exact hp
  exact ⟨processZipNode_reaches_parse env zipNode uid tmpdir size entries hdl hsz hxf hpf,
    fun e he m hxm hwm => zipFold_log_mem tmpdir entries zipInit e he m hxm hwm⟩

/-- C5 amended, witness at the concrete all-writes-fail bundle. -/
theorem C5_write_failure_capture_amended_witness :
    processZipNode zipEnvWritesFail "3" "7" "w" =
      Effect.download "7" "3" ::
        (([⟨"a.xml", some "EACCES: permission denied"⟩,
           ⟨"b.pdf", some "EACCES: permission denied"⟩].foldl (zipStep "w") zipInit).trace ++
          [Effect.parseXmlFile ([⟨"a.xml", some "EACCES: permission denied"⟩,
           ⟨"b.pdf", some "EACCES: permission denied"⟩].foldl (zipStep "w") zipInit).xmlPath] ++
          zipTail zipEnvWritesFail "7" "w"
            ([⟨"a.xml", some "EACCES: permission denied"⟩,
              ⟨"b.pdf", some "EACCES: permission denied"⟩].foldl (zipStep "w") zipInit)) ∧
    Effect.consoleError "EACCES: permission denied" ∈
      ([⟨"a.xml", some "EACCES: permission denied"⟩,
        ⟨"b.pdf", some "EACCES: permission denied"⟩].foldl (zipStep "w") zipInit).trace :=
  ⟨(C5_write_failure_capture_amended zipEnvWritesFail "3" "7" "w" 100
      [⟨"a.xml", some "EACCES: permission denied"⟩,
       ⟨"b.pdf", some "EACCES: permission denied"⟩]
      rfl (by decide) (by decide) (by decide)).1,
   (C5_write_failure_capture_amended zipEnvWritesFail "3" "7" "w" 100
      [⟨"a.xml", some "EACCES: permission denied"⟩,
       ⟨"b.pdf", some "EACCES: permission denied"⟩]
      rfl (by decide) (by decide) (by decide)).2
     ⟨"a.xml", some "EACCES: permission denied"⟩ (by decide)
     "EACCES: permission denied" (by decide) rfl⟩

/-- C6 counterexample: on the fully successful bundle run the success move
is requested BEFORE the workspace removal — the temp directory is not
removed before the message's outcome is finalized. -/
theorem C6_success_move_before_rm_counterexample :
    Effect.moveMsg "7" "GOOD" ∈ processZipNode zipEnvSuccess "3" "7" "w" ∧
    Effect.rmDir "w" ∈ processZipNode zipEnvSuccess "3" "7" "w" ∧
    List.indexOf (Effect.moveMsg "7" "GOOD") (processZipNode zipEnvSuccess "3" "7" "w") <
      List.indexOf (Effect.rmDir "w") (processZipNode zipEnvSuccess "3" "7" "w") ∧
    ¬ (List.indexOf (Effect.rmDir "w") (processZipNode zipEnvSuccess "3" "7" "w") <
        List.indexOf (Effect.moveMsg "7" "GOOD") (processZipNode zipEnvSuccess "3" "7" "w")) := by
  refine ⟨by decide, by decide, by decide, by decide⟩

/-- Every failure route appends `zipCatch`, whose removal comes strictly
before its failure-mailbox move: a trace ending in a `zipCatch` suffix splits
around the removal with the failure move in the part after it. -/
lemma catch_suffix_ordering (env : ZipEnv) (uid tmpdir emsg : String)
    (t pre : List Effect) (h : t = pre ++ zipCatch env uid tmpdir emsg) :
    ∃ p q, t = p ++ Effect.rmDir tmpdir :: q ∧ Effect.moveMsg uid env.badMailbox ∈ q := by
  refine ⟨pre ++ [Effect.consoleError emsg, Effect.logError emsg],
    moveMessage env.moveOk uid env.badMailbox, ?_, ?_⟩
  · rw [h]
    simp [zipCatch, List.append_assoc]
  · simp [moveMessage]

/-- Ordering of the post-capture tail: every outcome either ends with the
success move followed by the removal, or routes through a `zipCatch` whose
removal precedes the failure move. -/
lemma zipTail_ordering (env : ZipEnv) (uid tmpdir : String) (s : ZipLoopState)
    (pre : List Effect) :
    (∃ p, pre ++ zipTail env uid tmpdir s =
      p ++ (moveMessage env.moveOk uid env.goodMailbox ++ [Effect.rmDir tmpdir])) ∨
    (∃ p q, pre ++ zipTail env uid tmpdir s = p ++ Effect.rmDir tmpdir :: q ∧
      Effect.moveMsg uid env.badMailbox ∈ q) := by
  unfold zipTail
  rcases env.parseResult with e | d
  · exact Or.inr (catch_suffix_ordering env uid tmpdir e _ pre rfl)
  · rcases d with _ | data
    · exact Or.inr (catch_suffix_ordering env uid tmpdir "Could not get data from XML" _ pre rfl)
    · rcases hj : env.jsonWriteErr with _ | m
      · rcases hx : env.execErr with _ | m
        · refine Or.inl ⟨pre ++ [Effect.writeJson s.jsonPath data,
            Effect.execBuilder s.jsonPath s.xmlPath s.pdfPath], ?_⟩
          simp [List.append_assoc]
        · refine Or.inr (catch_suffix_ordering env uid tmpdir m _
            (pre ++ [Effect.writeJson s.jsonPath data,
              Effect.execBuilder s.jsonPath s.xmlPath s.pdfPath]) ?_)
          simp [List.append_assoc]
      · refine Or.inr (catch_suffix_ordering env uid tmpdir m _
          (pre ++ [Effect.writeJson s.jsonPath data]) ?_)
        simp [List.append_assoc]

/-- C6 amended: under the bundle strategy the removal of the per-message
workspace is always initiated (on every download, size, unpack, parse,
write, builder and success outcome), but on the success path it is initiated
only AFTER the move to the success mailbox (and it is not awaited), while on
every failure path it is initiated before the failure move; under the
direct-pair strategy no removal is ever initiated — the routine faults on
the undeclared `msg` before creating a workspace. The second conjunct states
the orderings universally: every bundle run either ends with the
success-mailbox move block followed by the removal, or splits around a
removal that precedes the failure-mailbox move. -/
theorem C6_cleanup_amended :
    (∀ (env : ZipEnv) (zipNode uid tmpdir : String),
      Effect.rmDir tmpdir ∈ processZipNode env zipNode uid tmpdir) ∧
    (∀ (env : ZipEnv) (zipNode uid tmpdir : String),
      (∃ p, processZipNode env zipNode uid tmpdir =
        p ++ (moveMessage env.moveOk uid env.goodMailbox ++ [Effect.rmDir tmpdir])) ∨
      (∃ p q, processZipNode env zipNode uid tmpdir = p ++ Effect.rmDir tmpdir :: q ∧
        Effect.moveMsg uid env.badMailbox ∈ q)) ∧
    (∀ (xmlNode pdfNode : String) (env : DirectEnv) (d : String),
      Effect.rmDir d ∉ (processXmlPdfNode xmlNode pdfNode env).1) := by
  refine ⟨?_, ?_, ?_⟩
  · intro env zipNode uid tmpdir
    unfold processZipNode
    rcases hdl : env.downloadResult with e | ⟨size, entries⟩
    · exact List.mem_cons_of_mem _ (zipCatch_rm_mem env uid tmpdir e)
    · by_cases hsz : size > 4 * 1024 * 1024
      · simp only [if_pos hsz]
        exact List.mem_cons_of_mem _ (zipCatch_rm_mem env uid tmpdir "Size too big")
      · simp only [if_neg hsz]
        by_cases hb : ((entries.foldl (zipStep tmpdir) zipInit).xml &&
            (entries.foldl (zipStep tmpdir) zipInit).pdf) = true
        · simp only [hb, if_pos]
          refine List.mem_cons_of_mem _ (List.mem_append_right _ ?_)
          exact zipTail_rm_mem env uid tmpdir _
        · simp only [Bool.not_eq_true] at hb
          simp only [hb, Bool.false_eq_true, if_false]
          refine List.mem_cons_of_mem _ (List.mem_append_right _ ?_)
          exact zipCatch_rm_mem env uid tmpdir "No contenía una factura válida"
  · intro env zipNode uid tmpdir
    unfold processZipNode
    rcases env.downloadResult with e | ⟨size, entries⟩
    · exact Or.inr (catch_suffix_ordering env uid tmpdir e _
        [Effect.download uid zipNode] rfl)
    · by_cases hsz : size > 4 * 1024 * 1024
      · simp only [if_pos hsz]
        exact Or.inr (catch_suffix_ordering env uid tmpdir "Size too big" _
          [Effect.download uid zipNode] rfl)
      · simp only [if_neg hsz]
        by_cases hb : ((entries.foldl (zipStep tmpdir) zipInit).xml &&
            (entries.foldl (zipStep tmpdir) zipInit).pdf) = true
        · simp only [hb, if_pos]
          exact zipTail_ordering env uid tmpdir (entries.foldl (zipStep tmpdir) zipInit)
            (Effect.download uid zipNode :: ((entries.foldl (zipStep tmpdir) zipInit).trace ++
              [Effect.parseXmlFile (entries.foldl (zipStep tmpdir) zipInit).xmlPath]))
        · simp only [Bool.not_eq_true] at hb
          simp only [hb, Bool.false_eq_true, if_false]
          exact Or.inr (catch_suffix_ordering env uid tmpdir "No contenía una factura válida" _
            (Effect.download uid zipNode :: (entries.foldl (zipStep tmpdir) zipInit).trace) rfl)
  · intro xmlNode pdfNode env d
    simp [processXmlPdfNode, processXmlPdfTry, processXmlPdfCatch, errText]

/-- C8: the direct-pair routine `#processXmlPdfNode` declares only
`(xmlNode, pdfNode)` but reads `msg` in both its try and catch blocks, so
every invocation ends in a `ReferenceError`: the try block throws before any
download, the catch logs and then throws again on `msg.uid`, and
consequently no file is written, the builder is never invoked, and the
message is moved to neither mailbox. -/
theorem C8_direct_pair_reference_error (xmlNode pdfNode : String) (env : DirectEnv) :
    processXmlPdfTry none xmlNode pdfNode env = ([], .error (.referenceError "msg")) ∧
    (∀ e : JsErr, (processXmlPdfCatch none env e).2 = .error (.referenceError "msg")) ∧
    processXmlPdfNode xmlNode pdfNode env =
      ([Effect.consoleError (errText (.referenceError "msg")),
        Effect.logError "Error processing Message"],
       .error (.referenceError "msg")) ∧
    (∀ p : String, Effect.writeFile p ∉ (processXmlPdfNode xmlNode pdfNode env).1) ∧
    (∀ j x p : String, Effect.execBuilder j x p ∉ (processXmlPdfNode xmlNode pdfNode env).1) ∧
    (∀ u m : String, Effect.moveMsg u m ∉ (processXmlPdfNode xmlNode pdfNode env).1) := by
  refine ⟨rfl, fun e => rfl, rfl, ?_, ?_, ?_⟩ <;>
    intros <;> simp [processXmlPdfNode, processXmlPdfTry, processXmlPdfCatch, errText]

/-- C9: in the bundle strategy, once both entries are captured and the
extraction succeeds, the Billing record is written to the json sidecar path
— the xml path with its first `.xml` occurrence replaced by `.json` —
strictly before the Document Builder is invoked with
`(jsonPath, xmlPath, pdfPath)`. -/
theorem C9_json_sidecar_before_builder (env : ZipEnv) (zipNode uid tmpdir : String)
    (size : Nat) (entries : List ZipEntry) (data : Billing) (s : ZipLoopState)
    (hdl : env.downloadResult = .ok (size, entries))
    (hsz : ¬ size > 4 * 1024 * 1024)
    (hs : entries.foldl (zipStep tmpdir) zipInit = s)
    (hxf : s.xml = true) (hpf : s.pdf = true)
    (hparse : env.parseResult = .ok (some data))
    (hjw : env.jsonWriteErr = none) :
    (∃ rest, processZipNode env zipNode uid tmpdir =
      Effect.download uid zipNode ::
        (s.trace ++ [Effect.parseXmlFile s.xmlPath, Effect.writeJson s.jsonPath data,
          Effect.execBuilder s.jsonPath s.xmlPath s.pdfPath] ++ rest)) ∧
    s.jsonPath = replaceFirstStr s.xmlPath ".xml" ".json" := by
  constructor
  · have h := processZipNode_reaches_parse env zipNode uid tmpdir size entries hdl hsz
      (by rw [hs]; exact hxf) (by rw [hs]; exact hpf)
    rw [hs] at h
    refine ⟨match env.execErr with
      | some m => zipCatch env uid tmpdir m
      | none => moveMessage env.moveOk uid env.goodMailbox ++ [Effect.rmDir tmpdir], ?_⟩
    rw [h]
    unfold zipTail
    rw [hparse, hjw]
    simp [List.append_assoc]
  · have h := zipFold_json_inv tmpdir entries zipInit (by intro hcon; cases hcon)
    rw [hs] at h
    exact h hxf

/-- C9 witness: the fully successful bundle writes `w/a.json` before calling
the builder with `(w/a.json, w/a.xml, w/b.pdf)`. -/
theorem C9_json_sidecar_before_builder_witness :
    (∃ rest, processZipNode zipEnvSuccess "3" "7" "w" =
      Effect.download "7" "3" ::
        ([Effect.writeFile "w/a.xml", Effect.drain "a.xml",
          Effect.writeFile "w/b.pdf", Effect.drain "b.pdf"] ++
         [Effect.parseXmlFile "w/a.xml", Effect.writeJson "w/a.json" sampleBilling,
          Effect.execBuilder "w/a.json" "w/a.xml" "w/b.pdf"] ++ rest)) ∧
    "w/a.json" = replaceFirstStr "w/a.xml" ".xml" ".json" :=
  C9_json_sidecar_before_builder zipEnvSuccess "3" "7" "w" 100
    [⟨"a.xml", none⟩, ⟨"b.pdf", none⟩] sampleBilling
    ⟨true, "w/a.xml", "w/a.json", true, "w/b.pdf",
     [Effect.writeFile "w/a.xml", Effect.drain "a.xml",
      Effect.writeFile "w/b.pdf", Effect.drain "b.pdf"]⟩
    rfl (by decide) (by decide) rfl rfl rfl rfl

/-- C10: when no mailbox is selected (`client.mailbox` is a boolean) or the
client is not usable, `processMessages` creates the cycle timestamp
directory and returns without raising, fetching nothing and processing no
message. -/
theorem C10_unusable_client_noop (env : FetchEnv) (dir : String)
    (hmk : env.mkdirErr = none)
    (h : env.mailboxIsBoolean = true ∨ env.usable = false) :
    processMessages env dir = ([Effect.mkdirD dir], .ok ()) := by
  unfold processMessages fetchMessages
  rw [hmk]
  rcases h with h | h
  · simp [h]
  · rcases hb : env.mailboxIsBoolean
    · simp [hb, h]
    · simp [hb]

/-- C10 witness: a cycle with no selected mailbox and an unusable client is
exactly the directory creation. -/
theorem C10_unusable_client_noop_witness :
    processMessages ⟨false, false, none, .ok []⟩ "d" = ([Effect.mkdirD "d"], .ok ()) :=
  C10_unusable_client_noop ⟨false, false, none, .ok []⟩ "d" rfl (Or.inr rfl)

end FactuMail
